import Mathlib

/-
Verification of `torch/nn/parameter.py` (the `Parameter` class).

The class is a thin wrapper over an external tensor engine.  We give a
shallow embedding in which object identity, storage aliasing and dict
references — the things the class's behaviour is about — are explicit:

* a `World` is a heap holding tensor storages (id ↦ list of values) and
  tag dictionaries (id ↦ association list of entries), together with a
  fresh-id counter;
* a `Tensor` is a handle: a storage id plus a memory-format marker
  (`torch.preserve_format` clones keep it);
* a `Parameter` is an object: its own identity (`oid`, Python's `id`),
  the wrapped tensor handle (`data`), the gradient flag and a reference
  (dict id) to its `tags` mapping.

Each method of the source class becomes a function on this model:
`Parameter.new` (`__new__`), `Parameter.deepcopy` (`__deepcopy__`),
`Parameter.reduceEx` (`__reduce_ex__`), `reprParameter` (`__repr__`).
-/

namespace Torch

/-- A tensor handle: storage identity plus memory-format metadata.
Values live in the `World`'s storage heap, so two handles with the same
`sid` alias the same storage (as `torch.Tensor._make_subclass` does). -/
structure Tensor where
  sid : Nat
  fmt : Nat
deriving DecidableEq, Repr

/-- Entries of a `tags` dictionary: string keys to metadata values. -/
abbrev TagEntries := List (String × Int)

/-- The heap: tensor storages, tag dictionaries, and a fresh-id counter. -/
structure World where
  tstore : List (Nat × List Int)
  dstore : List (Nat × TagEntries)
  next : Nat
deriving DecidableEq, Repr

/-- Read a tensor storage's values. -/
def World.readT (w : World) (sid : Nat) : Option (List Int) :=
  w.tstore.lookup sid

/-- Read a tag dictionary's entries. -/
def World.readD (w : World) (did : Nat) : Option TagEntries :=
  w.dstore.lookup did

/-- Mutate a tensor storage in place (all handles with this `sid` see it). -/
def World.writeT (w : World) (sid : Nat) (v : List Int) : World :=
  ⟨(sid, v) :: w.tstore, w.dstore, w.next⟩

/-- Allocate a fresh tensor storage holding `v`, handle format `fmt`. -/
def World.allocTensor (w : World) (fmt : Nat) (v : List Int) : Tensor × World :=
  (⟨w.next, fmt⟩, ⟨(w.next, v) :: w.tstore, w.dstore, w.next + 1⟩)

/-- Allocate a fresh tag dictionary holding `es`. -/
def World.allocDict (w : World) (es : TagEntries) : Nat × World :=
  (w.next, ⟨w.tstore, (w.next, es) :: w.dstore, w.next + 1⟩)

/-- Well-formed heap: every allocated id is below the fresh-id counter. -/
def World.WF (w : World) : Prop :=
  (∀ e ∈ w.tstore, e.1 < w.next) ∧ (∀ e ∈ w.dstore, e.1 < w.next)

instance (w : World) : Decidable w.WF := by
  unfold World.WF; exact inferInstance

/-- A `Parameter` object: its Python identity `oid`, the wrapped tensor
handle `data`, the `requires_grad` flag, and the dict-heap reference of
its `tags` mapping. -/
structure Parameter where
  oid : Nat
  data : Tensor
  requires_grad : Bool
  tags : Nat
deriving DecidableEq, Repr

/-- `Parameter.__new__`: if `data is None` use a fresh empty tensor
(`torch.Tensor()`); bind the data handle and `requires_grad` via
`_make_subclass` (a fresh object aliasing `data`'s storage); set
`instance.tags = \x7b\x7d if tags is None else tags`. -/
def Parameter.new (w : World) (data : Option Tensor) (rg : Bool)
    (tags : Option Nat) : Parameter × World :=
  let dw : Tensor × World :=
    match data with
    | none => w.allocTensor 0 []
    | some t => (t, w)
  let tw : Nat × World :=
    match tags with
    | none => dw.2.allocDict []
    | some d => (d, dw.2)
  (⟨tw.2.next, dw.1, rg, tw.1⟩, ⟨tw.2.tstore, tw.2.dstore, tw.2.next + 1⟩)

/-- `self.data.clone(memory_format=torch.preserve_format)`: a fresh
storage with the same values, same memory format. -/
def Tensor.clone (w : World) (t : Tensor) : Tensor × World :=
  w.allocTensor t.fmt ((w.readT t.sid).getD [])

/-- `Parameter.__deepcopy__(self, memo)`: return the memoised copy if
`id(self)` is a key of `memo`; otherwise build
`type(self)(self.data.clone(memory_format=torch.preserve_format),
self.requires_grad, self.tags)`, record it in `memo`, return it. -/
def Parameter.deepcopy (p : Parameter) (w : World)
    (memo : List (Nat × Parameter)) :
    Parameter × World × List (Nat × Parameter) :=
  match memo.lookup p.oid with
  | some r => (r, w, memo)
  | none =>
    let cw := Tensor.clone w p.data
    let rw := Parameter.new cw.2 (some cw.1) p.requires_grad (some p.tags)
    (rw.1, rw.2, (p.oid, rw.1) :: memo)

/-- The entries of `p.tags` as seen in heap `w` (what `self.tags`
truthiness inspects). -/
def World.tagsOf (w : World) (p : Parameter) : TagEntries :=
  (w.readD p.tags).getD []

/-- The argument tuple of the reduction recipe returned by
`__reduce_ex__` (the function component is always
`torch._utils._rebuild_parameter`).  `hooks` is the freshly built empty
`OrderedDict()` placeholder. -/
inductive ReduceArgs where
  | three (data : Tensor) (rg : Bool) (hooks : TagEntries)
  | four (data : Tensor) (rg : Bool) (hooks : TagEntries) (tags : Nat)
deriving DecidableEq, Repr

/-- `Parameter.__reduce_ex__`: if `self.tags` (truthy, i.e. non-empty)
return the 4-tuple `(self.data, self.requires_grad, OrderedDict(),
self.tags)`, else the 3-tuple `(self.data, self.requires_grad,
OrderedDict())`. -/
def Parameter.reduceEx (w : World) (p : Parameter) : ReduceArgs :=
  if w.tagsOf p ≠ [] then
    ReduceArgs.four p.data p.requires_grad [] p.tags
  else
    ReduceArgs.three p.data p.requires_grad []

/-- Number of positional arguments in the recipe's argument tuple. -/
def ReduceArgs.numArgs : ReduceArgs → Nat
  | .three .. => 3
  | .four .. => 4

/-- The 4th positional argument (the tags reference), when present. -/
def ReduceArgs.fourth : ReduceArgs → Option Nat
  | .three .. => none
  | .four _ _ _ tg => some tg

/-- Modelled from the spec: `torch._utils._rebuild_parameter` is not
under `src/`; per the spec it replays the recipe by constructing a
Parameter from the recorded `data` and `requires_grad`, passing the
recorded `tags` when the 4-argument form was used and nothing (so the
constructor default applies) for the 3-argument form. -/
def rebuild_parameter (w : World) (a : ReduceArgs) : Parameter × World :=
  match a with
  | .three d rg _ => Parameter.new w (some d) rg none
  | .four d rg _ tg => Parameter.new w (some d) rg (some tg)

/-- `Parameter.__repr__`: the fixed banner followed by the tensor
engine's own default formatting of the data (`super().__repr__()`,
abstracted as an arbitrary formatter `f`). -/
def reprParameter (f : Tensor → String) (p : Parameter) : String :=
  "Parameter containing:\n" ++ f p.data

/-- Modelled from the spec: the module checkpoint machinery is not under
`src/`; per the spec a parameter's persisted-snapshot entry carries only
the data and the grad flag, never the `tags` mapping. -/
structure PersistedEntry where
  data : Tensor
  requires_grad : Bool
deriving DecidableEq, Repr

/-- Modelled from the spec: what of a Parameter enters a module's
persisted-parameter-values snapshot (checkpoint state). -/
def stateEntry (p : Parameter) : PersistedEntry :=
  ⟨p.data, p.requires_grad⟩

/-- C1: `__reduce_ex__` branches on arity: with empty `tags` the
argument tuple is exactly the 3 positional arguments
`(data, requires_grad, empty hook mapping)`; with non-empty `tags` it is
exactly those 4 arguments, the 4th being the Parameter's tags mapping. -/
theorem claim_C1 (w : World) (p : Parameter) :
    (w.tagsOf p = [] →
      Parameter.reduceEx w p = ReduceArgs.three p.data p.requires_grad [] ∧
      (Parameter.reduceEx w p).numArgs = 3) ∧
    (w.tagsOf p ≠ [] →
      Parameter.reduceEx w p = ReduceArgs.four p.data p.requires_grad [] p.tags ∧
      (Parameter.reduceEx w p).numArgs = 4 ∧
      (Parameter.reduceEx w p).fourth = some p.tags) := by
  constructor <;> intro h <;>
    simp [Parameter.reduceEx, h, ReduceArgs.numArgs, ReduceArgs.fourth]

/-- Witness for C1: both arities realised at concrete parameters. -/
theorem claim_C1_witness :
    (Parameter.reduceEx ⟨[], [(0, [])], 1⟩ ⟨5, ⟨2, 0⟩, true, 0⟩).numArgs = 3 ∧
    (Parameter.reduceEx ⟨[], [(0, [("opt", 1)])], 1⟩ ⟨5, ⟨2, 0⟩, true, 0⟩).numArgs = 4 :=
  ⟨((claim_C1 ⟨[], [(0, [])], 1⟩ ⟨5, ⟨2, 0⟩, true, 0⟩).1 (by decide)).2,
   ((claim_C1 ⟨[], [(0, [("opt", 1)])], 1⟩ ⟨5, ⟨2, 0⟩, true, 0⟩).2 (by decide)).2.1⟩

/-- C2: constructing a Parameter from tensor `t` and flag `g` yields an
object whose data handle is exactly `t` (hence aliases `t`'s storage)
and whose `requires_grad` equals `g`. -/
theorem claim_C2 (w : World) (t : Tensor) (g : Bool) (tg : Option Nat) :
    (Parameter.new w (some t) g tg).1.data = t ∧
    (Parameter.new w (some t) g tg).1.data.sid = t.sid ∧
    (Parameter.new w (some t) g tg).1.requires_grad = g := by
  cases tg <;> simp [Parameter.new]

/-- C3: constructing a Parameter with `data` absent wraps a fresh empty
tensor: the resulting heap maps its storage to the empty value list. -/
theorem claim_C3 (w : World) (g : Bool) (tg : Option Nat) :
    (Parameter.new w none g tg).2.readT
      (Parameter.new w none g tg).1.data.sid = some [] := by
  cases tg <;>
    simp [Parameter.new, World.allocTensor, World.allocDict, World.readT,
      List.lookup]

/-- C4: at construction, with no tags supplied the Parameter's `tags` is
a fresh empty mapping (empty in the new heap, and its id collides with
no dictionary existing before); with a mapping supplied, the Parameter
stores exactly that reference, no copy. -/
theorem claim_C4 (w : World) (dat : Option Tensor) (g : Bool) (h : w.WF) :
    ((Parameter.new w dat g none).2.readD
        (Parameter.new w dat g none).1.tags = some [] ∧
      ∀ e ∈ w.dstore, e.1 ≠ (Parameter.new w dat g none).1.tags) ∧
    (∀ d, (Parameter.new w dat g (some d)).1.tags = d) := by
  refine ⟨⟨?_, ?_⟩, ?_⟩
  · cases dat <;>
      simp [Parameter.new, World.allocTensor, World.allocDict, World.readD,
        List.lookup]
  · intro e he
    have hlt : e.1 < w.next := h.2 e he
    cases dat <;>
      simp only [Parameter.new, World.allocTensor, World.allocDict] <;>
      omega
  · intro d
    cases dat <;> simp [Parameter.new]

/-- Witness for C4 at a concrete well-formed heap. -/
theorem claim_C4_witness :
    (⟨[], [(0, [("k", 2)])], 1⟩ : World).WF ∧
    (Parameter.new ⟨[], [(0, [("k", 2)])], 1⟩ none true none).2.readD
      (Parameter.new ⟨[], [(0, [("k", 2)])], 1⟩ none true none).1.tags
        = some [] ∧
    (Parameter.new ⟨[], [(0, [("k", 2)])], 1⟩ none true (some 0)).1.tags = 0 :=
  ⟨by decide,
   (claim_C4 ⟨[], [(0, [("k", 2)])], 1⟩ none true (by decide)).1.1,
   (claim_C4 ⟨[], [(0, [("k", 2)])], 1⟩ none true (by decide)).2 0⟩

/-- C5: deep-copying a Parameter not yet in the memo yields a new
Parameter with the same `requires_grad`, the same `tags` reference (not
deep-cloned), and a format-preserving clone of the data with independent
storage: same values, a different storage id, and mutating the copy's
storage leaves the original's values unchanged. -/
theorem claim_C5 (w : World) (p : Parameter) (memo : List (Nat × Parameter))
    (vs : List Int) (hm : memo.lookup p.oid = none)
    (hs : w.readT p.data.sid = some vs) (hlt : p.data.sid < w.next) :
    (p.deepcopy w memo).1.requires_grad = p.requires_grad ∧
    (p.deepcopy w memo).1.tags = p.tags ∧
    (p.deepcopy w memo).1.data.fmt = p.data.fmt ∧
    (p.deepcopy w memo).1.data.sid ≠ p.data.sid ∧
    (p.deepcopy w memo).2.1.readT (p.deepcopy w memo).1.data.sid = some vs ∧
    (p.deepcopy w memo).2.1.readT p.data.sid = some vs ∧
    ∀ v, ((p.deepcopy w memo).2.1.writeT
        (p.deepcopy w memo).1.data.sid v).readT p.data.sid = some vs := by
  have hne : p.data.sid ≠ w.next := Nat.ne_of_lt hlt
  have hb : (p.data.sid == w.next) = false := by
    simpa using hne
  have hs' : List.lookup p.data.sid w.tstore = some vs := hs
  simp [Parameter.deepcopy, hm, Tensor.clone, Parameter.new,
    World.allocTensor, World.readT, World.writeT, hs', List.lookup, hne, hb,
    Ne.symm hne]

/-- Witness for C5: a concrete deep copy gets a new storage id, and
overwriting the copy's storage leaves the original's values intact. -/
theorem claim_C5_witness :
    (Parameter.deepcopy ⟨3, ⟨0, 4⟩, true, 9⟩ ⟨[(0, [7])], [], 1⟩ []).1.data.sid ≠ 0 ∧
    ((Parameter.deepcopy ⟨3, ⟨0, 4⟩, true, 9⟩ ⟨[(0, [7])], [], 1⟩ []).2.1.writeT
        (Parameter.deepcopy ⟨3, ⟨0, 4⟩, true, 9⟩ ⟨[(0, [7])], [], 1⟩ []).1.data.sid
        [99]).readT 0 = some [7] :=
  ⟨(claim_C5 ⟨[(0, [7])], [], 1⟩ ⟨3, ⟨0, 4⟩, true, 9⟩ [] [7]
      (by decide) (by decide) (by decide)).2.2.2.1,
   (claim_C5 ⟨[(0, [7])], [], 1⟩ ⟨3, ⟨0, 4⟩, true, 9⟩ [] [7]
      (by decide) (by decide) (by decide)).2.2.2.2.2.2 [99]⟩

/-- C6: if the Parameter's identity is already a memo key, deep copy
returns the memoised copy and changes nothing; consequently deep-copying
twice in one memo context returns the identical instance both times. -/
theorem claim_C6 (w : World) (p : Parameter) (memo : List (Nat × Parameter)) :
    (∀ r, memo.lookup p.oid = some r → p.deepcopy w memo = (r, w, memo)) ∧
    (memo.lookup p.oid = none →
      Parameter.deepcopy p (p.deepcopy w memo).2.1 (p.deepcopy w memo).2.2 =
        p.deepcopy w memo) := by
  constructor
  · intro r hr
    simp [Parameter.deepcopy, hr]
  · intro hm
    simp [Parameter.deepcopy, hm, List.lookup]

/-- Witness for C6: both the memo-hit case and the copy-twice case at
concrete inputs. -/
theorem claim_C6_witness :
    Parameter.deepcopy ⟨3, ⟨0, 4⟩, true, 9⟩ ⟨[(0, [7])], [], 1⟩
        [(3, ⟨8, ⟨1, 0⟩, false, 2⟩)] =
      (⟨8, ⟨1, 0⟩, false, 2⟩, ⟨[(0, [7])], [], 1⟩,
        [(3, ⟨8, ⟨1, 0⟩, false, 2⟩)]) ∧
    Parameter.deepcopy ⟨3, ⟨0, 4⟩, true, 9⟩
        (Parameter.deepcopy ⟨3, ⟨0, 4⟩, true, 9⟩ ⟨[(0, [7])], [], 1⟩ []).2.1
        (Parameter.deepcopy ⟨3, ⟨0, 4⟩, true, 9⟩ ⟨[(0, [7])], [], 1⟩ []).2.2 =
      Parameter.deepcopy ⟨3, ⟨0, 4⟩, true, 9⟩ ⟨[(0, [7])], [], 1⟩ [] :=
  ⟨(claim_C6 ⟨[(0, [7])], [], 1⟩ ⟨3, ⟨0, 4⟩, true, 9⟩
      [(3, ⟨8, ⟨1, 0⟩, false, 2⟩)]).1 ⟨8, ⟨1, 0⟩, false, 2⟩ (by decide),
   (claim_C6 ⟨[(0, [7])], [], 1⟩ ⟨3, ⟨0, 4⟩, true, 9⟩ []).2 (by decide)⟩

/-- C7: replaying the serialization recipe rebuilds a Parameter whose
data and `requires_grad` equal the original's, and — in the 4-argument
case — whose tags reference equals the original's. -/
theorem claim_C7 (w : World) (p : Parameter) :
    (rebuild_parameter w (Parameter.reduceEx w p)).1.data = p.data ∧
    (rebuild_parameter w (Parameter.reduceEx w p)).1.requires_grad =
      p.requires_grad ∧
    (w.tagsOf p ≠ [] →
      (rebuild_parameter w (Parameter.reduceEx w p)).1.tags = p.tags) := by
  by_cases h : w.tagsOf p = [] <;>
    simp [Parameter.reduceEx, rebuild_parameter, Parameter.new, h]

/-- Witness for C7: round trip at a concrete tagged Parameter. -/
theorem claim_C7_witness :
    (rebuild_parameter ⟨[], [(0, [("opt", 1)])], 1⟩
        (Parameter.reduceEx ⟨[], [(0, [("opt", 1)])], 1⟩
          ⟨5, ⟨2, 0⟩, true, 0⟩)).1.data = ⟨2, 0⟩ ∧
    (rebuild_parameter ⟨[], [(0, [("opt", 1)])], 1⟩
        (Parameter.reduceEx ⟨[], [(0, [("opt", 1)])], 1⟩
          ⟨5, ⟨2, 0⟩, true, 0⟩)).1.tags = 0 :=
  ⟨(claim_C7 ⟨[], [(0, [("opt", 1)])], 1⟩ ⟨5, ⟨2, 0⟩, true, 0⟩).1,
   (claim_C7 ⟨[], [(0, [("opt", 1)])], 1⟩ ⟨5, ⟨2, 0⟩, true, 0⟩).2.2 (by decide)⟩

/-- C8: deep copy's only effect on the memo: when the identity is absent
it adds exactly one entry, the new copy keyed under the original's
identity; when the identity is present the memo is returned unchanged
(and the heap too). -/
theorem claim_C8 (w : World) (p : Parameter) (memo : List (Nat × Parameter)) :
    (memo.lookup p.oid = none →
      (p.deepcopy w memo).2.2 = (p.oid, (p.deepcopy w memo).1) :: memo) ∧
    (∀ r, memo.lookup p.oid = some r →
      (p.deepcopy w memo).2.2 = memo ∧ (p.deepcopy w memo).2.1 = w) := by
  constructor
  · intro h
    simp [Parameter.deepcopy, h]
  · intro r h
    simp [Parameter.deepcopy, h]

/-- Witness for C8: both memo-effect cases at concrete inputs. -/
theorem claim_C8_witness :
    (Parameter.deepcopy ⟨3, ⟨0, 4⟩, true, 9⟩ ⟨[(0, [7])], [], 1⟩ []).2.2 =
      [(3, (Parameter.deepcopy ⟨3, ⟨0, 4⟩, true, 9⟩
        ⟨[(0, [7])], [], 1⟩ []).1)] ∧
    (Parameter.deepcopy ⟨3, ⟨0, 4⟩, true, 9⟩ ⟨[(0, [7])], [], 1⟩
        [(3, ⟨8, ⟨1, 0⟩, false, 2⟩)]).2.2 = [(3, ⟨8, ⟨1, 0⟩, false, 2⟩)] :=
  ⟨(claim_C8 ⟨[(0, [7])], [], 1⟩ ⟨3, ⟨0, 4⟩, true, 9⟩ []).1 (by decide),
   ((claim_C8 ⟨[(0, [7])], [], 1⟩ ⟨3, ⟨0, 4⟩, true, 9⟩
      [(3, ⟨8, ⟨1, 0⟩, false, 2⟩)]).2 ⟨8, ⟨1, 0⟩, false, 2⟩ (by decide)).1⟩

/-- C9: for any tensor-engine formatter `f`, the display string is the
fixed banner followed by `f`'s formatting of the data: its first 22
characters are the banner and the rest is exactly `f p.data`.  The
producing function is a pure Lean function, so it has no side effects. -/
theorem claim_C9 (f : Tensor → String) (p : Parameter) :
    reprParameter f p = "Parameter containing:\n" ++ f p.data ∧
    (reprParameter f p).toList.take 22 = "Parameter containing:\n".toList ∧
    (reprParameter f p).toList.drop 22 = (f p.data).toList := by
  have hlen : ("Parameter containing:\n".toList).length = 22 := by decide
  refine ⟨rfl, ?_, ?_⟩
  · rw [← hlen]
    simp [reprParameter, String.toList, String.data_append]
  · rw [← hlen]
    simp [reprParameter, String.toList, String.data_append]

/-- C10: the persisted-snapshot entry of a Parameter depends only on its
data and `requires_grad`: replacing the tags reference leaves the entry
unchanged, and tags appear nowhere in the entry. -/
theorem claim_C10 (p : Parameter) (t o : Nat) :
    stateEntry ⟨o, p.data, p.requires_grad, t⟩ = stateEntry p ∧
    (stateEntry p).data = p.data ∧
    (stateEntry p).requires_grad = p.requires_grad := by
  simp [stateEntry]

end Torch
